import Mathlib

/-!
Verification of the LURK payment automation core against its specification.

The definitions below are a shallow embedding of the Python sources:

* `src/backend/app/utils/rate_limiter.py` — `RateLimiter.is_rate_limited`
* `src/backend/app/services/card_monitor.py` — `CardMonitorService._make_api_request`
* `src/backend/app/services/payment_engine.py` — `PaymentEngine.process_minimum_payment`,
  `process_scheduled_payments`, `handle_webhook`, `_verify_webhook_signature`,
  `_handle_payment_captured`
* `src/backend/app/models/payment.py` — `PaymentStatus`, `Payment`, `PaymentSchedule`

Pure functions become Lean functions; Redis/DB state is threaded explicitly;
fallible externals (gateway, coordination store) are parameters of `Option` /
sum type.  Times are integer Unix seconds.
-/

namespace Lurk

/-! ## Sliding-window rate limiter (`rate_limiter.py`) -/

/-- Failure modes of the coordination store observed by `is_rate_limited`:
the caught exception classes `redis.RedisError` and `asyncio.TimeoutError`. -/
inductive StoreFailure
  | redisError
  | timedOut
  deriving DecidableEq, Repr

/-- Result of one `is_rate_limited` call: the boolean answer, the surviving
sorted-set entries for the key, and whether the degraded-mode branch logged. -/
structure RateLimitOutcome where
  limited : Bool
  window : List Int
  degradedLogged : Bool
  deriving DecidableEq, Repr

/-- Entries surviving `zremrangebyscore(rate_key, 0, window_start)`:
scores in the closed interval `[0, window_start]` are removed. -/
def pruneWindow (window : List Int) (now windowMinutes : Int) : List Int :=
  let windowStart := now - windowMinutes * 60
  window.filter fun t => !(decide (0 ≤ t) && decide (t ≤ windowStart))

/-- Shallow embedding of `RateLimiter.is_rate_limited`.  The pipeline prunes
entries outside the window, reads `zcard` (the count BEFORE the current
attempt is added), adds the current timestamp, and returns
`current_attempts > max_attempts`.  On `redis.RedisError` or
`asyncio.TimeoutError` the function fails open: it returns `False` and logs
the degraded-mode event. -/
def isRateLimited (window : List Int) (now : Int) (maxAttempts : Nat)
    (windowMinutes : Int) (store : Option StoreFailure) : RateLimitOutcome :=
  match store with
  | some _ =>
    { limited := false, window := window, degradedLogged := true }
  | none =>
    let pruned := pruneWindow window now windowMinutes
    let currentAttempts := pruned.length
    { limited := decide (currentAttempts > maxAttempts)
      window := pruned ++ [now]
      degradedLogged := false }

/-- A sequence of `is_rate_limited` calls at the given times on one key,
starting from an empty window, with the store healthy throughout.  Returns
the per-call answers and the final window. -/
def rateLimitSequence (times : List Int) (maxAttempts : Nat)
    (windowMinutes : Int) : List Bool × List Int :=
  times.foldl
    (fun acc t =>
      let out := isRateLimited acc.2 t maxAttempts windowMinutes none
      (acc.1 ++ [out.limited], out.window))
    ([], [])

/-! ## Retrying API client (`card_monitor.py`, `_make_api_request`) -/

/-- One attempt's observable outcome: an HTTP response with status code,
`Retry-After` header value and body, a timeout (`asyncio.TimeoutError`), or
any other request exception. -/
inductive ApiAttempt
  | httpResp (code : Nat) (retryAfter : Nat) (body : String)
  | timedOut
  | requestError
  deriving DecidableEq, Repr

/-- Result of `_make_api_request`: the returned value (`None` on failure),
the number of attempts actually performed, and the sequence of sleeps (in
seconds) executed between attempts. -/
structure ApiCallResult where
  data : Option String
  attemptsMade : Nat
  sleeps : List Nat
  deriving DecidableEq, Repr

/-- Loop body of `_make_api_request`, recursing over the remaining
iterations of `for attempt in range(retry_attempts)`.  `i` is the current
value of `attempt` (used for the `2 ** attempt` backoff).
Classification per the source: 200 returns the body; 429 sleeps for
`Retry-After` and retries (consuming an attempt); 401/403 return `None`
immediately; any other status, a timeout, or a request exception returns
`None` on the last attempt and otherwise sleeps `2 ** attempt` and retries. -/
def makeApiRequestAux (responses : Nat → ApiAttempt) : Nat → Nat → ApiCallResult
  | _, 0 => { data := none, attemptsMade := 0, sleeps := [] }
  | i, r + 1 =>
    match responses i with
    | .httpResp code retryAfter body =>
      if code = 200 then
        { data := some body, attemptsMade := 1, sleeps := [] }
      else if code = 429 then
        let rest := makeApiRequestAux responses (i + 1) r
        { data := rest.data, attemptsMade := rest.attemptsMade + 1
          sleeps := retryAfter :: rest.sleeps }
      else if code = 401 ∨ code = 403 then
        { data := none, attemptsMade := 1, sleeps := [] }
      else if r = 0 then
        { data := none, attemptsMade := 1, sleeps := [] }
      else
        let rest := makeApiRequestAux responses (i + 1) r
        { data := rest.data, attemptsMade := rest.attemptsMade + 1
          sleeps := 2 ^ i :: rest.sleeps }
    | .timedOut =>
      if r = 0 then
        { data := none, attemptsMade := 1, sleeps := [] }
      else
        let rest := makeApiRequestAux responses (i + 1) r
        { data := rest.data, attemptsMade := rest.attemptsMade + 1
          sleeps := 2 ^ i :: rest.sleeps }
    | .requestError =>
      if r = 0 then
        { data := none, attemptsMade := 1, sleeps := [] }
      else
        let rest := makeApiRequestAux responses (i + 1) r
        { data := rest.data, attemptsMade := rest.attemptsMade + 1
          sleeps := 2 ^ i :: rest.sleeps }

/-- Shallow embedding of `CardMonitorService._make_api_request` with the
outcome of the `j`-th attempt given by `responses j`. -/
def makeApiRequest (responses : Nat → ApiAttempt) (retryAttempts : Nat) :
    ApiCallResult :=
  makeApiRequestAux responses 0 retryAttempts

/-! ## Payment ledger data model (`models/payment.py`) -/

/-- The `PaymentStatus` enum. -/
inductive PaymentStatus
  | pending
  | processing
  | completed
  | failed
  | cancelled
  | refunded
  | chargeback
  deriving DecidableEq, Repr

/-- The columns of the `payments` table touched by `process_minimum_payment`.
`id` is a surrogate for the UUID primary key; times are Unix seconds. -/
structure PaymentRow where
  id : Nat
  cardId : String
  amount : Int
  status : PaymentStatus
  transactionId : Option String
  gatewayOrderId : Option String
  gatewayPaymentId : Option String
  initiatedAt : Option Int
  processedAt : Option Int
  failedAt : Option Int
  errorCode : Option String
  errorMessage : Option String
  idempotencyKey : String
  triggeredBy : String
  deriving DecidableEq, Repr

/-- The JSON blob cached in Redis under `payment:` + idempotency key after a
successful gateway submission (`setex` with a 24-hour TTL).  Presence of an
entry in `EngineState.paymentCache` models a cache entry that is still live
(written after a success less than 24 hours ago). -/
structure CacheEntry where
  paymentId : Nat
  transactionId : String
  amount : Int
  statusText : String
  deriving DecidableEq, Repr

/-- Fields of `CreditCard` read by `process_minimum_payment` and
`_calculate_payment_amount`. -/
structure CreditCard where
  id : String
  minimumDue : Int
  totalDue : Int
  customPaymentAmount : Option Int
  paymentPreference : String
  deriving DecidableEq, Repr

/-- Truthiness of `card.custom_payment_amount` in Python: a missing value or
`Decimal(0)` is falsy. -/
def truthyAmount : Option Int → Bool
  | none => false
  | some a => a != 0

/-- Shallow embedding of `PaymentEngine._calculate_payment_amount`. -/
def calculatePaymentAmount (card : CreditCard) : Int :=
  if card.paymentPreference = "full_amount" then card.totalDue
  else if card.paymentPreference = "custom" ∧ truthyAmount card.customPaymentAmount then
    card.customPaymentAmount.getD 0
  else card.minimumDue

/-- The Razorpay response to `POST /payments` when the call succeeded with a
transaction id; `_make_razorpay_request` returns `None` otherwise. -/
structure GatewayResponse where
  id : String
  orderId : Option String
  statusText : Option String
  deriving DecidableEq, Repr

/-- Shared state read and written by `process_minimum_payment`: the
`payments` table, the live `payment:` idempotency cache entries, the set of
card ids holding a `upi_mandate:` Redis entry, and the next surrogate row
id. -/
structure EngineState where
  payments : List PaymentRow
  paymentCache : List (String × CacheEntry)
  mandateCards : List String
  nextId : Nat
  deriving DecidableEq, Repr

/-- The dictionary returned by `process_minimum_payment`, plus the threaded
state and a count of `POST /payments` gateway submissions made during the
call. -/
structure ProcessOutcome where
  success : Bool
  message : String
  errorCode : Option String
  paymentId : Option Nat
  statusText : Option String
  gatewayCalls : Nat
  state : EngineState
  deriving DecidableEq, Repr

/-- Apply `f` to the row with id `pid` (the ORM mutation followed by
`db.commit()`). -/
def updateRow (rows : List PaymentRow) (pid : Nat) (f : PaymentRow → PaymentRow) :
    List PaymentRow :=
  rows.map fun r => if r.id = pid then f r else r

/-- Shallow embedding of `PaymentEngine.process_minimum_payment`.

External effects are parameters: `rateLimited` is the answer of
`check_payment_attempts`; `mandateCreationOk` is whether
`create_upi_autopay_mandate` succeeds when no mandate is cached;
`gatewayResp` is the `POST /payments` response (`none` for any gateway
failure).  Control flow mirrors the source: idempotency-cache check, amount
calculation, rate-limit check, row creation in PENDING, mandate resolution,
gateway submission, then either the FAILED update or persisting the gateway
references and writing the 24-hour idempotency cache entry. -/
def processMinimumPayment (card : CreditCard) (now : Int) (rateLimited : Bool)
    (mandateCreationOk : Bool) (gatewayResp : Option GatewayResponse)
    (idempotencyKey : Option String) (triggerSource : String)
    (s : EngineState) : ProcessOutcome :=
  let key :=
    match idempotencyKey with
    | some k => k
    | none => "payment_" ++ card.id ++ "_" ++ toString now
  match s.paymentCache.lookup key with
  | some entry =>
    { success := true, message := "Payment already processed"
      errorCode := none, paymentId := some entry.paymentId
      statusText := some "duplicate", gatewayCalls := 0, state := s }
  | none =>
    let paymentAmount := calculatePaymentAmount card
    if paymentAmount ≤ 0 then
      { success := false, message := "No payment required"
        errorCode := some "NO_PAYMENT_REQUIRED", paymentId := none
        statusText := none, gatewayCalls := 0, state := s }
    else if rateLimited then
      { success := false, message := "Payment processing rate limit exceeded"
        errorCode := some "RATE_LIMIT_EXCEEDED", paymentId := none
        statusText := none, gatewayCalls := 0, state := s }
    else
      let row : PaymentRow :=
        { id := s.nextId, cardId := card.id, amount := paymentAmount
          status := .pending, transactionId := none, gatewayOrderId := none
          gatewayPaymentId := none, initiatedAt := some now
          processedAt := none, failedAt := none, errorCode := none
          errorMessage := none, idempotencyKey := key
          triggeredBy := triggerSource }
      let s1 : EngineState :=
        { s with payments := s.payments ++ [row], nextId := s.nextId + 1 }
      let haveMandate := s1.mandateCards.contains card.id
      if !haveMandate && !mandateCreationOk then
        { success := false, message := "UPI AutoPay mandate required"
          errorCode := some "MANDATE_REQUIRED", paymentId := none
          statusText := none, gatewayCalls := 0, state := s1 }
      else
        let s2 :=
          if haveMandate then s1
          else { s1 with mandateCards := s1.mandateCards ++ [card.id] }
        match gatewayResp with
        | none =>
          let s3 :=
            { s2 with payments := updateRow s2.payments s.nextId fun r =>
                { r with
                  status := .failed, failedAt := some now,
                  errorMessage :=
                    some "Failed to create payment gateway transaction" } }
          { success := false, message := "Failed to process payment"
            errorCode := some "PAYMENT_GATEWAY_ERROR", paymentId := none
            statusText := none, gatewayCalls := 1, state := s3 }
        | some resp =>
          let s3 :=
            { s2 with
              payments := updateRow s2.payments s.nextId fun r =>
                { r with
                  transactionId := some resp.id,
                  gatewayOrderId := resp.orderId,
                  gatewayPaymentId := some resp.id,
                  processedAt := some now },
              paymentCache := s2.paymentCache ++
                [(key, { paymentId := s.nextId, transactionId := resp.id,
                         amount := paymentAmount, statusText := "created" })] }
          { success := true, message := "Payment processing initiated"
            errorCode := none, paymentId := some s.nextId
            statusText := some (resp.statusText.getD "created")
            gatewayCalls := 1, state := s3 }

/-! ## Scheduled payment queue drain (`process_scheduled_payments`) -/

/-- One member of the `payment_scheduled` Redis sorted set: the JSON
schedule blob with its zset score (`int(scheduled_date.timestamp())`). -/
structure ScheduleEntry where
  cardId : String
  userId : String
  scheduledDate : Int
  scheduledAmount : Int
  score : Int
  deriving DecidableEq, Repr

/-- The card fields the drain loop reads after its DB lookup. -/
structure DrainCard where
  autoPaymentEnabled : Bool
  deriving DecidableEq, Repr

/-- Result of one `process_scheduled_payments` pass: the counters of the
returned dictionary, the obligations `process_minimum_payment` was invoked
on (in order), and the final contents of the sorted set. -/
structure DrainOutcome where
  processed : Nat
  successful : Nat
  failed : Nat
  skipped : Nat
  submitted : List ScheduleEntry
  queue : List ScheduleEntry
  deriving DecidableEq, Repr

/-- One iteration of the drain loop over a due entry: skip entries whose
parsed date is in the future; `zrem` and skip entries whose card or user is
missing or whose card has auto payment disabled; otherwise invoke `submit`
(`process_minimum_payment`), count the outcome, and `zrem` the entry whether
the submission succeeded or failed. -/
def drainStep (now : Int) (cards : List (String × DrainCard))
    (users : List String) (submit : ScheduleEntry → Bool)
    (acc : DrainOutcome) (e : ScheduleEntry) : DrainOutcome :=
  if now < e.scheduledDate then
    { acc with skipped := acc.skipped + 1 }
  else
    match cards.lookup e.cardId with
    | none =>
      { acc with skipped := acc.skipped + 1, queue := acc.queue.erase e }
    | some card =>
      if !users.contains e.userId || !card.autoPaymentEnabled then
        { acc with skipped := acc.skipped + 1, queue := acc.queue.erase e }
      else
        let ok := submit e
        { acc with
          processed := acc.processed + 1,
          successful := acc.successful + (if ok then 1 else 0),
          failed := acc.failed + (if ok then 0 else 1),
          submitted := acc.submitted ++ [e],
          queue := acc.queue.erase e }

/-- Shallow embedding of `PaymentEngine.process_scheduled_payments`.
`zrangebyscore(queue_key, 0, now)` selects the due entries, which are then
folded through `drainStep`.  `submit` abstracts the recursive call to
`process_minimum_payment`, returning that call's `success` flag.  Note the
loop never inserts anything into the sorted set. -/
def processScheduledPayments (queue : List ScheduleEntry) (now : Int)
    (cards : List (String × DrainCard)) (users : List String)
    (submit : ScheduleEntry → Bool) : DrainOutcome :=
  let due := queue.filter fun e => decide (0 ≤ e.score) && decide (e.score ≤ now)
  due.foldl (drainStep now cards users submit)
    { processed := 0, successful := 0, failed := 0, skipped := 0,
      submitted := [], queue := queue }

/-! ## Webhook reconciler (`handle_webhook`, `_verify_webhook_signature`,
`_handle_payment_captured`) -/

/-- The parsed webhook request body as read by `handle_webhook` and the
`payment.captured` handler. -/
structure WebhookEvent where
  eventType : Option String
  hasPaymentEntity : Bool
  notePaymentId : Option String
  noteCardId : Option String
  noteUserId : Option String
  amountPaise : Int
  deriving DecidableEq, Repr

/-- Exceptions raised and swallowed inside `_verify_webhook_signature`. -/
inductive PyError
  | attributeError
  deriving DecidableEq, Repr

/-- Evaluation of the expression `hashlib.hmac(...)` in
`_verify_webhook_signature`.  Python's `hashlib` module has no attribute
named `hmac` (HMAC lives in the separate `hmac` module), so this attribute
access raises `AttributeError` before any digest is computed; the bare
`except` in the source then returns `False`. -/
def hashlibHmacDigest (_secret _body : String) : Except PyError String :=
  .error .attributeError

/-- Deterministic stand-in for `json.dumps(webhook_data, separators=...)`,
which always succeeds on the parsed dictionary. -/
def serializeWebhook (ev : WebhookEvent) : String :=
  (ev.eventType.getD "") ++ "|" ++ (ev.notePaymentId.getD "")

/-- The webhook secret `RAZORPAY_WEBHOOK_SECRET` (default value). -/
def razorpayWebhookSecret : String := "webhook_secret_123"

/-- Shallow embedding of `PaymentEngine._verify_webhook_signature`: read the
`X-Razorpay-Signature` header (missing header returns `False`), serialize
the body, compute the HMAC digest — which raises, the exception being
swallowed into `False` — and otherwise compare. -/
def verifyWebhookSignature (ev : WebhookEvent)
    (headers : List (String × String)) : Bool :=
  match headers.lookup "X-Razorpay-Signature" with
  | none => false
  | some signature =>
    match hashlibHmacDigest razorpayWebhookSecret (serializeWebhook ev) with
    | .error _ => false
    | .ok expected => signature == expected

/-- Shallow embedding of `PaymentEngine._handle_payment_captured`.  The
handler has no database session: it only validates the payload shape and
logs a `PAYMENT_CAPTURED` system event.  The ledger is threaded explicitly
to make the absence of any write visible. -/
def handlePaymentCaptured (ev : WebhookEvent) (ledger : List PaymentRow) :
    (Bool × String) × List PaymentRow :=
  if !ev.hasPaymentEntity then
    ((false, "Invalid payment data"), ledger)
  else
    ((true, "Payment captured successfully"), ledger)

/-- The keys of `PaymentEngine.webhook_handlers`. -/
def webhookHandlerNames : List String :=
  ["payment.captured", "payment.failed", "refund.processed",
   "subscription.charged", "mandate.created", "mandate.revoked"]

/-- Result of `handle_webhook`: the response dictionary, the name of the
registered handler that was invoked (if any), and the threaded ledger. -/
structure WebhookOutcome where
  success : Bool
  message : String
  invokedHandler : Option String
  ledger : List PaymentRow
  deriving DecidableEq, Repr

/-- Shallow embedding of `PaymentEngine.handle_webhook`: verify the
signature (returning the failure dictionary on verification failure),
require an event type, and dispatch to the registered handler when one
exists.  Only the `payment.captured` handler can touch payment state, and
(see `handlePaymentCaptured`) even it does not. -/
def handleWebhook (ev : WebhookEvent) (headers : List (String × String))
    (ledger : List PaymentRow) : WebhookOutcome :=
  if !verifyWebhookSignature ev headers then
    { success := false, message := "Invalid webhook signature",
      invokedHandler := none, ledger := ledger }
  else
    match ev.eventType with
    | none =>
      { success := false, message := "Missing event type",
        invokedHandler := none, ledger := ledger }
    | some eventType =>
      if webhookHandlerNames.contains eventType then
        if eventType = "payment.captured" then
          let res := handlePaymentCaptured ev ledger
          { success := res.1.1, message := res.1.2,
            invokedHandler := some eventType, ledger := res.2 }
        else
          { success := true, message := "handled", invokedHandler := some eventType,
            ledger := ledger }
      else
        { success := true, message := "Webhook received for event: " ++ eventType,
          invokedHandler := none, ledger := ledger }

/-! ## Concrete sample inputs used by counterexamples and witnesses -/

/-- A card whose preference is `minimum_due` with a positive minimum. -/
def sampleCard : CreditCard :=
  { id := "card1", minimumDue := 500, totalDue := 2000,
    customPaymentAmount := none, paymentPreference := "minimum_due" }

/-- A gateway acceptance: the response carries a transaction id. -/
def sampleGateway : GatewayResponse :=
  { id := "pay_1", orderId := some "order_1", statusText := some "created" }

/-- An earlier Payment row for idempotency key `k`, still in the
non-terminal PENDING state (as `process_minimum_payment` leaves it after a
successful submission), whose 24-hour Redis cache entry has expired. -/
def c1Row : PaymentRow :=
  { id := 0, cardId := "card1", amount := 500, status := .pending,
    transactionId := some "pay_0", gatewayOrderId := none,
    gatewayPaymentId := some "pay_0", initiatedAt := some 0,
    processedAt := some 0, failedAt := none, errorCode := none,
    errorMessage := none, idempotencyKey := "k", triggeredBy := "automatic" }

/-- State holding `c1Row` but no live idempotency cache entry for `k`. -/
def c1State : EngineState :=
  { payments := [c1Row], paymentCache := [], mandateCards := ["card1"],
    nextId := 1 }

/-- A second call for key `k` against `c1State`. -/
def c1Out : ProcessOutcome :=
  processMinimumPayment sampleCard 100000 false true (some sampleGateway)
    (some "k") "automatic" c1State

/-- State whose idempotency cache holds a live entry for key `k`. -/
def c1WitState : EngineState :=
  { payments := [], mandateCards := [], nextId := 0,
    paymentCache := [("k", { paymentId := 7, transactionId := "pay_7",
                             amount := 500, statusText := "created" })] }

/-- Fresh engine state with a cached mandate for `card1`. -/
def freshState : EngineState :=
  { payments := [], paymentCache := [], mandateCards := ["card1"], nextId := 0 }

/-- A drain call where the gateway accepts the submission. -/
def c4Out : ProcessOutcome :=
  processMinimumPayment sampleCard 1000 false true (some sampleGateway)
    (some "key4") "scheduled" freshState

/-- A call where the gateway submission fails. -/
def c7Out : ProcessOutcome :=
  processMinimumPayment sampleCard 1000 false true none
    (some "key7") "automatic" freshState

/-- A due obligation of a recurring schedule (interval irrelevant: the queue
entry does not even carry the recurrence descriptor). -/
def c6Entry : ScheduleEntry :=
  { cardId := "card1", userId := "user1", scheduledDate := 1000,
    scheduledAmount := 500, score := 1000 }

/-- Card table for drain examples. -/
def drainCards : List (String × DrainCard) :=
  [("card1", { autoPaymentEnabled := true }),
   ("card2", { autoPaymentEnabled := true })]

/-- User table for drain examples. -/
def drainUsers : List String := ["user1", "user2"]

/-- Two due obligations for the consumption/isolation scenario. -/
def c8EntryA : ScheduleEntry :=
  { cardId := "card1", userId := "user1", scheduledDate := 900,
    scheduledAmount := 300, score := 900 }

/-- Second due obligation, on a different card. -/
def c8EntryB : ScheduleEntry :=
  { cardId := "card2", userId := "user2", scheduledDate := 950,
    scheduledAmount := 400, score := 950 }

/-- A submit function that fails for `card1` and succeeds otherwise. -/
def c8Submit (e : ScheduleEntry) : Bool := e.cardId != "card1"

/-- A `payment.captured` event for an existing PENDING payment. -/
def c5Event : WebhookEvent :=
  { eventType := some "payment.captured", hasPaymentEntity := true,
    notePaymentId := some "0", noteCardId := some "card1",
    noteUserId := some "user1", amountPaise := 50000 }

/-- Whether a due entry will reach the submit branch of the drain loop: its
score selects it, its parsed date is not in the future, its card exists with
auto payment enabled, and its user exists. -/
def entryReady (now : Int) (cards : List (String × DrainCard))
    (users : List String) (e : ScheduleEntry) : Bool :=
  decide (0 ≤ e.score) && decide (e.score ≤ now) &&
  decide (e.scheduledDate ≤ now) &&
  (match cards.lookup e.cardId with
   | some c => c.autoPaymentEnabled
   | none => false) &&
  users.contains e.userId

/-! ## Theorems -/

/-- Claim C9 (confirmed): for every key, when the coordination store is
unavailable (a `redis.RedisError` or an `asyncio.TimeoutError` during the
check), `is_rate_limited` fails open: it returns `False` instead of
blocking, leaves the window untouched, and logs the degraded-mode event. -/
theorem c9_fail_open (w : List Int) (now : Int) (m : Nat) (wm : Int)
    (f : StoreFailure) :
    isRateLimited w now m wm (some f) =
      { limited := false, window := w, degradedLogged := true } := rfl

/-- Claim C10 (confirmed, implicit): `_verify_webhook_signature` returns
`False` for every payload and header map — the `hashlib.hmac` attribute
access raises and the exception is swallowed — so `handle_webhook` never
invokes any registered event handler and always answers with the failure
result `Invalid webhook signature`, whether or not a signature header is
present and whatever its value. -/
theorem c10_webhook_always_rejected (ev : WebhookEvent)
    (headers : List (String × String)) (ledger : List PaymentRow) :
    verifyWebhookSignature ev headers = false ∧
    handleWebhook ev headers ledger =
      { success := false, message := "Invalid webhook signature",
        invokedHandler := none, ledger := ledger } := by
  have hv : verifyWebhookSignature ev headers = false := by
    unfold verifyWebhookSignature
    cases headers.lookup "X-Razorpay-Signature" <;> rfl
  refine ⟨hv, ?_⟩
  unfold handleWebhook
  rw [hv]
  rfl

/-- Claim C5 (code_bug): `_handle_payment_captured` performs no state
transition at all — it validates the payload shape and logs, leaving every
Payment row exactly as it was.  In particular, for a captured event
targeting a PENDING payment the ledger still shows PENDING afterwards, not
COMPLETED: the conditional-update discipline the claim (and the handler's
own comments) describe is absent. -/
theorem c5_captured_handler_writes_nothing (ev : WebhookEvent)
    (ledger : List PaymentRow) :
    (handlePaymentCaptured ev ledger).2 = ledger ∧
    (handlePaymentCaptured c5Event [c1Row]).2.map PaymentRow.status =
      [PaymentStatus.pending] := by
  constructor
  · unfold handlePaymentCaptured
    split <;> rfl
  · decide

/-- Claim C2 (counterexample): with `max_attempts = 5` and five prior calls
inside the window, the claim says the sixth call within the same window is
limited; computing the embedded `is_rate_limited` over six calls at seconds
0..5 of a 1-minute window shows every call, the sixth included, returns not
limited. -/
theorem c2_counterexample :
    (rateLimitSequence [0, 1, 2, 3, 4, 5] 5 1).1 =
      [false, false, false, false, false, false] ∧
    (rateLimitSequence [0, 1, 2, 3, 4, 5] 5 1).1.getLast? = some false := by
  decide

/-- Claim C2 (corrected): `is_rate_limited` records the current timestamp
and prunes entries older than the window, but compares `max_attempts`
against the count taken BEFORE the current timestamp is added.  Hence with
`max_attempts = 5` the sixth in-window call is not limited, the seventh
in-window call is limited, and a sixth call after the window has fully
elapsed is not limited; the returned window always ends with the
just-recorded timestamp. -/
theorem c2_sliding_window_counts_prior_entries :
    (rateLimitSequence [0, 1, 2, 3, 4, 5, 6] 5 1).1 =
      [false, false, false, false, false, false, true] ∧
    (rateLimitSequence [0, 1, 2, 3, 4, 100] 5 1).1 =
      [false, false, false, false, false, false] ∧
    (isRateLimited [0, 1, 2, 3, 4] 5 5 1 none).window =
      [0, 1, 2, 3, 4, 5] := by
  decide

/-- Claim C6 (counterexample): a due obligation of a recurring schedule is
drained and simply removed; the final queue is empty, so no next occurrence
was re-inserted at the original time plus the interval (or anywhere else),
contradicting the claimed re-insertion. -/
theorem c6_counterexample :
    processScheduledPayments [c6Entry] 2000 drainCards drainUsers
        (fun _ => true) =
      { processed := 1, successful := 1, failed := 0, skipped := 0,
        submitted := [c6Entry], queue := [] } := by
  decide

/-- Each drain-loop iteration leaves the sorted set unchanged or erases one
member; it never adds one. -/
theorem drainStep_queue_sublist (now : Int) (cards : List (String × DrainCard))
    (users : List String) (submit : ScheduleEntry → Bool)
    (acc : DrainOutcome) (e : ScheduleEntry) :
    List.Sublist (drainStep now cards users submit acc e).queue acc.queue := by
  unfold drainStep
  split
  · exact List.Sublist.refl _
  · split
    · exact List.erase_sublist _ _
    · split
      · exact List.erase_sublist _ _
      · exact List.erase_sublist _ _

/-- Folding the drain loop over any list of due entries only ever shrinks
the sorted set. -/
theorem drainFold_queue_sublist (now : Int) (cards : List (String × DrainCard))
    (users : List String) (submit : ScheduleEntry → Bool) :
    ∀ (l : List ScheduleEntry) (acc : DrainOutcome),
      List.Sublist
        ((l.foldl (drainStep now cards users submit) acc).queue) acc.queue
  | [], _ => List.Sublist.refl _
  | e :: t, acc =>
    (drainFold_queue_sublist now cards users submit t
        (drainStep now cards users submit acc e)).trans
      (drainStep_queue_sublist now cards users submit acc e)

/-- Claim C6 (corrected): the drain never re-inserts anything into the
scheduled queue — the final queue after a drain pass is always a sub-list of
the initial queue, so a recurring obligation has no re-scheduled next
occurrence at `original_time + interval` (or anywhere): the recurrence
descriptor on `PaymentSchedule` is ignored by `process_scheduled_payments`
and a recurring obligation fires at most once. -/
theorem c6_drain_never_reinserts (queue : List ScheduleEntry) (now : Int)
    (cards : List (String × DrainCard)) (users : List String)
    (submit : ScheduleEntry → Bool) :
    List.Sublist
      (processScheduledPayments queue now cards users submit).queue queue := by
  unfold processScheduledPayments
  exact drainFold_queue_sublist now cards users submit _ _

/-- Claim C1 (counterexample): `c1State` holds a Payment row for key `k` in
the non-terminal PENDING state, but its 24-hour Redis idempotency cache
entry has expired.  The claim says a second call with key `k` returns the
existing payment as a duplicate, creates no second row and makes no gateway
call; computing the embedded `process_minimum_payment` shows a second row
is created, a gateway call is made, and the result is not a duplicate. -/
theorem c1_counterexample :
    c1Row ∈ c1State.payments ∧ c1Row.idempotencyKey = "k" ∧
    c1Row.status = PaymentStatus.pending ∧
    c1Out.state.payments.length = 2 ∧
    c1Out.gatewayCalls = 1 ∧
    c1Out.statusText ≠ some "duplicate" := by
  decide

/-- Claim C1 (corrected): the at-most-once guarantee is enforced through the
Redis `payment:` cache entry, which is written only after a successful
gateway submission and expires after 24 hours.  While such an entry is live,
a call with the same idempotency key returns the cached payment id marked
`duplicate`, creates no Payment row, makes no gateway call, and leaves all
state unchanged.  A prior attempt that failed, or whose cache entry has
expired, does not prevent a second Payment row and gateway call. -/
theorem c1_duplicate_returns_cached (card : CreditCard) (now : Int)
    (rl mok : Bool) (gw : Option GatewayResponse) (key trig : String)
    (s : EngineState) (entry : CacheEntry)
    (h : s.paymentCache.lookup key = some entry) :
    processMinimumPayment card now rl mok gw (some key) trig s =
      { success := true, message := "Payment already processed",
        errorCode := none, paymentId := some entry.paymentId,
        statusText := some "duplicate", gatewayCalls := 0, state := s } := by
  unfold processMinimumPayment
  simp only [h]

/-- Witness for `c1_duplicate_returns_cached` at a concrete state holding a
live cache entry for key `k`. -/
theorem c1_duplicate_returns_cached_w :
    processMinimumPayment sampleCard 5 false true none (some "k") "manual"
        c1WitState =
      { success := true, message := "Payment already processed",
        errorCode := none, paymentId := some 7,
        statusText := some "duplicate", gatewayCalls := 0,
        state := c1WitState } :=
  c1_duplicate_returns_cached sampleCard 5 false true none "k" "manual"
    c1WitState
    { paymentId := 7, transactionId := "pay_7", amount := 500,
      statusText := "created" }
    (by decide)

/-- When every attempt times out, the retry loop performs all remaining
attempts, sleeping `2 ^ attempt` between consecutive attempts, and returns
`None`. -/
theorem makeApiRequestAux_timeout (responses : Nat → ApiAttempt)
    (h : ∀ j, responses j = .timedOut) :
    ∀ (r i : Nat), makeApiRequestAux responses i (r + 1) =
      { data := none, attemptsMade := r + 1,
        sleeps := (List.range r).map fun j => 2 ^ (i + j) }
  | 0, i => by
    simp [makeApiRequestAux, h i]
  | r + 1, i => by
    have ih := makeApiRequestAux_timeout responses h r (i + 1)
    rw [makeApiRequestAux.eq_def]
    dsimp only
    rw [h i]
    simp only [Nat.succ_ne_zero, if_false]
    rw [ih]
    have harith : ∀ j : Nat, 2 ^ (i + 1 + j) = 2 ^ (i + (j + 1)) := by
      intro j
      congr 1
      omega
    simp [List.range_succ_eq_map, List.map_map, Function.comp, harith]

/-- Claim C3 (confirmed): for every request through `_make_api_request`, a
401 or 403 response is terminal — the call returns `None` after exactly one
attempt with no retry and no backoff sleep — while a timeout is retried
with exponential backoff (`2 ^ attempt` seconds between attempts) up to the
configured maximum attempt count, after which the call returns the terminal
failure `None`. -/
theorem c3_retry_classification (respAuth respTimeout : Nat → ApiAttempt)
    (code retryAfter : Nat) (body : String) (n : Nat)
    (hauth : respAuth 0 = .httpResp code retryAfter body)
    (hcode : code = 401 ∨ code = 403)
    (htmo : ∀ j, respTimeout j = .timedOut) :
    makeApiRequest respAuth (n + 1) =
      { data := none, attemptsMade := 1, sleeps := [] } ∧
    makeApiRequest respTimeout (n + 1) =
      { data := none, attemptsMade := n + 1,
        sleeps := (List.range n).map fun j => 2 ^ j } := by
  constructor
  · unfold makeApiRequest makeApiRequestAux
    rw [hauth]
    rcases hcode with h | h <;> subst h <;> rfl
  · have := makeApiRequestAux_timeout respTimeout htmo n 0
    unfold makeApiRequest
    rw [this]
    simp

/-- Witness for `c3_retry_classification`: a constant-401 endpoint and a
constant-timeout endpoint with the configured default of 3 attempts. -/
theorem c3_retry_classification_w :
    makeApiRequest (fun _ => .httpResp 401 60 "denied") 3 =
      { data := none, attemptsMade := 1, sleeps := [] } ∧
    makeApiRequest (fun _ => .timedOut) 3 =
      { data := none, attemptsMade := 3,
        sleeps := (List.range 2).map fun j => 2 ^ j } :=
  c3_retry_classification (fun _ => .httpResp 401 60 "denied")
    (fun _ => .timedOut) 401 60 "denied" 2 rfl (Or.inl rfl) (fun _ => rfl)

/-- The ORM update of the freshly inserted row: the new row is the last of
the table, and the conditional map rewrites it with `f`. -/
theorem updateRow_append_getLast (rows : List PaymentRow) (row : PaymentRow)
    (pid : Nat) (f : PaymentRow → PaymentRow) (hid : row.id = pid) :
    (updateRow (rows ++ [row]) pid f).getLast? = some (f row) := by
  unfold updateRow
  rw [List.map_append]
  simp [hid]

/-- Claim C4 (counterexample): the gateway accepts the submission of a due
obligation (`c4Out` has `success = true` and the transaction reference is
persisted), yet the resulting Payment row's state is PENDING, not the
claimed PROCESSING-or-later. -/
theorem c4_counterexample :
    c4Out.success = true ∧
    c4Out.state.payments.map PaymentRow.transactionId = [some "pay_1"] ∧
    c4Out.state.payments.map PaymentRow.status = [PaymentStatus.pending] ∧
    c4Out.state.payments.map PaymentRow.status ≠ [PaymentStatus.processing] := by
  decide

/-- Claim C4 (corrected): whenever the gateway accepts the submission (the
response contains a transaction id), `process_minimum_payment` persists the
gateway transaction reference (`transaction_id`, `gateway_payment_id`,
`gateway_order_id`) and sets `processed_at` on the Payment row, but performs
no state transition: the row's status remains PENDING, so after a successful
drain the resulting Payment is in state PENDING, not PROCESSING. -/
theorem c4_acceptance_persists_reference_only (card : CreditCard) (now : Int)
    (mok : Bool) (resp : GatewayResponse) (key trig : String)
    (s : EngineState)
    (hcache : s.paymentCache.lookup key = none)
    (hamt : 0 < calculatePaymentAmount card)
    (hmand : s.mandateCards.contains card.id = true) :
    (processMinimumPayment card now false mok (some resp) (some key) trig
        s).success = true ∧
    (processMinimumPayment card now false mok (some resp) (some key) trig
        s).state.payments.getLast? = some
      { id := s.nextId, cardId := card.id,
        amount := calculatePaymentAmount card, status := .pending,
        transactionId := some resp.id, gatewayOrderId := resp.orderId,
        gatewayPaymentId := some resp.id, initiatedAt := some now,
        processedAt := some now, failedAt := none, errorCode := none,
        errorMessage := none, idempotencyKey := key,
        triggeredBy := trig } := by
  have hamt' : ¬ calculatePaymentAmount card ≤ 0 := by omega
  unfold processMinimumPayment
  simp only [hcache, hamt', hmand, Bool.not_true, Bool.false_and,
    Bool.false_eq_true, if_false, if_true, ite_false, ite_true]
  refine ⟨trivial, ?_⟩
  rw [updateRow_append_getLast _ _ _ _ rfl]

/-- Witness for `c4_acceptance_persists_reference_only` on a fresh state
with a cached mandate and an accepting gateway. -/
theorem c4_acceptance_persists_reference_only_w :
    (processMinimumPayment sampleCard 1000 false true (some sampleGateway)
        (some "key4") "scheduled" freshState).success = true ∧
    (processMinimumPayment sampleCard 1000 false true (some sampleGateway)
        (some "key4") "scheduled" freshState).state.payments.getLast? = some
      { id := 0, cardId := "card1", amount := 500,
        status := .pending, transactionId := some "pay_1",
        gatewayOrderId := some "order_1", gatewayPaymentId := some "pay_1",
        initiatedAt := some 1000, processedAt := some 1000, failedAt := none,
        errorCode := none, errorMessage := none, idempotencyKey := "key4",
        triggeredBy := "scheduled" } :=
  c4_acceptance_persists_reference_only sampleCard 1000 true sampleGateway
    "key4" "scheduled" freshState (by decide) (by decide) (by decide)

/-- Claim C7 (counterexample): when the gateway submission fails, the
Payment row is set to FAILED with the generic message `Failed to create
payment gateway transaction`, the row's `error_code` column stays empty, and
the caller receives `PAYMENT_GATEWAY_ERROR`; no distinct `exhausted` error
code is recorded anywhere, and no retry client is involved (a single
gateway attempt was made). -/
theorem c7_counterexample :
    c7Out.errorCode = some "PAYMENT_GATEWAY_ERROR" ∧
    c7Out.gatewayCalls = 1 ∧
    c7Out.state.payments.map PaymentRow.status = [PaymentStatus.failed] ∧
    c7Out.state.payments.map PaymentRow.errorCode = [none] ∧
    c7Out.state.payments.map PaymentRow.errorMessage =
      [some "Failed to create payment gateway transaction"] := by
  decide

/-- Claim C7 (corrected): when the gateway submission fails (the
single-attempt `_make_razorpay_request` helper returns nothing — the
retrying client of `card_monitor` is not used on this path), the Payment is
transitioned to FAILED with `failed_at` set and the generic
`error_message` `Failed to create payment gateway transaction`; the caller
receives error code `PAYMENT_GATEWAY_ERROR`.  The FAILED row remains in the
table (the payment never vanishes), but no distinct `exhausted` error code
exists: the row's `error_code` column is left empty. -/
theorem c7_gateway_failure_marks_failed (card : CreditCard) (now : Int)
    (mok : Bool) (key trig : String) (s : EngineState)
    (hcache : s.paymentCache.lookup key = none)
    (hamt : 0 < calculatePaymentAmount card)
    (hmand : s.mandateCards.contains card.id = true) :
    (processMinimumPayment card now false mok none (some key) trig
        s).success = false ∧
    (processMinimumPayment card now false mok none (some key) trig
        s).errorCode = some "PAYMENT_GATEWAY_ERROR" ∧
    (processMinimumPayment card now false mok none (some key) trig
        s).state.payments.getLast? = some
      { id := s.nextId, cardId := card.id,
        amount := calculatePaymentAmount card, status := .failed,
        transactionId := none, gatewayOrderId := none,
        gatewayPaymentId := none, initiatedAt := some now,
        processedAt := none, failedAt := some now, errorCode := none,
        errorMessage := some "Failed to create payment gateway transaction",
        idempotencyKey := key, triggeredBy := trig } := by
  have hamt' : ¬ calculatePaymentAmount card ≤ 0 := by omega
  unfold processMinimumPayment
  simp only [hcache, hamt', hmand, Bool.not_true, Bool.false_and,
    Bool.false_eq_true, if_false, if_true, ite_false, ite_true]
  refine ⟨trivial, trivial, ?_⟩
  rw [updateRow_append_getLast _ _ _ _ rfl]

/-- Witness for `c7_gateway_failure_marks_failed` on a fresh state with a
cached mandate and a failing gateway. -/
theorem c7_gateway_failure_marks_failed_w :
    (processMinimumPayment sampleCard 1000 false true none (some "key7")
        "automatic" freshState).success = false ∧
    (processMinimumPayment sampleCard 1000 false true none (some "key7")
        "automatic" freshState).errorCode = some "PAYMENT_GATEWAY_ERROR" ∧
    (processMinimumPayment sampleCard 1000 false true none (some "key7")
        "automatic" freshState).state.payments.getLast? = some
      { id := 0, cardId := "card1", amount := 500, status := .failed,
        transactionId := none, gatewayOrderId := none,
        gatewayPaymentId := none, initiatedAt := some 1000,
        processedAt := none, failedAt := some 1000, errorCode := none,
        errorMessage := some "Failed to create payment gateway transaction",
        idempotencyKey := "key7", triggeredBy := "automatic" } :=
  c7_gateway_failure_marks_failed sampleCard 1000 true "key7" "automatic"
    freshState (by decide) (by decide) (by decide)

/-- A ready entry reaches the submit branch: the iteration invokes `submit`,
counts the outcome, and erases the entry from the sorted set whether the
submission succeeded or failed. -/
theorem drainStep_ready (now : Int) (cards : List (String × DrainCard))
    (users : List String) (submit : ScheduleEntry → Bool)
    (acc : DrainOutcome) (e : ScheduleEntry)
    (h : entryReady now cards users e = true) :
    drainStep now cards users submit acc e =
      { acc with
        processed := acc.processed + 1,
        successful := acc.successful + (if submit e then 1 else 0),
        failed := acc.failed + (if submit e then 0 else 1),
        submitted := acc.submitted ++ [e],
        queue := acc.queue.erase e } := by
  unfold entryReady at h
  unfold drainStep
  cases hl : cards.lookup e.cardId with
  | none =>
    rw [hl] at h
    simp at h
  | some c =>
    rw [hl] at h
    simp only [Bool.and_eq_true, decide_eq_true_eq] at h
    obtain ⟨⟨⟨⟨_, _⟩, hdate⟩, hauto⟩, husers⟩ := h
    rw [if_neg (by omega)]
    rw [husers]
    dsimp only
    rw [hauto]
    rfl

/-- Folding the drain loop over ready entries invokes `submit` on each of
them in order, whatever each submission returns. -/
theorem drainFold_submitted (now : Int) (cards : List (String × DrainCard))
    (users : List String) (submit : ScheduleEntry → Bool) :
    ∀ (l : List ScheduleEntry) (acc : DrainOutcome),
      (∀ e ∈ l, entryReady now cards users e = true) →
      (l.foldl (drainStep now cards users submit) acc).submitted =
        acc.submitted ++ l
  | [], acc, _ => by simp
  | e :: t, acc, h => by
    have he : entryReady now cards users e = true := h e (by simp)
    have ht : ∀ x ∈ t, entryReady now cards users x = true := by
      intro x hx
      exact h x (by simp [hx])
    rw [List.foldl_cons, drainStep_ready now cards users submit acc e he,
      drainFold_submitted now cards users submit t _ ht]
    simp

/-- Folding the drain loop over ready entries counts every one of them as
processed. -/
theorem drainFold_processed (now : Int) (cards : List (String × DrainCard))
    (users : List String) (submit : ScheduleEntry → Bool) :
    ∀ (l : List ScheduleEntry) (acc : DrainOutcome),
      (∀ e ∈ l, entryReady now cards users e = true) →
      (l.foldl (drainStep now cards users submit) acc).processed =
        acc.processed + l.length
  | [], acc, _ => by simp
  | e :: t, acc, h => by
    have he : entryReady now cards users e = true := h e (by simp)
    have ht : ∀ x ∈ t, entryReady now cards users x = true := by
      intro x hx
      exact h x (by simp [hx])
    rw [List.foldl_cons, drainStep_ready now cards users submit acc e he,
      drainFold_processed now cards users submit t _ ht]
    simp
    omega

/-- Folding the drain loop over ready entries erases each of them from the
sorted set, whether its submission succeeded or failed. -/
theorem drainFold_queue (now : Int) (cards : List (String × DrainCard))
    (users : List String) (submit : ScheduleEntry → Bool) :
    ∀ (l : List ScheduleEntry) (acc : DrainOutcome),
      (∀ e ∈ l, entryReady now cards users e = true) →
      (l.foldl (drainStep now cards users submit) acc).queue =
        l.foldl List.erase acc.queue
  | [], _, _ => by simp
  | e :: t, acc, h => by
    have he : entryReady now cards users e = true := h e (by simp)
    have ht : ∀ x ∈ t, entryReady now cards users x = true := by
      intro x hx
      exact h x (by simp [hx])
    rw [List.foldl_cons, drainStep_ready now cards users submit acc e he,
      drainFold_queue now cards users submit t _ ht]
    rfl

/-- Erasing the elements of a duplicate-free list from itself, in order,
empties it. -/
theorem foldl_erase_self : ∀ (l : List ScheduleEntry), l.Nodup →
    l.foldl List.erase l = []
  | [], _ => rfl
  | e :: t, h => by
    rw [List.foldl_cons, List.erase_cons_head]
    exact foldl_erase_self t (List.nodup_cons.mp h).2

/-- Claim C8 (confirmed): in a single drain pass over due, valid
obligations, `submit` is invoked on every obligation regardless of whether
earlier submissions in the same pass failed (failures are isolated), every
processed obligation is counted, and every one is removed from the queue
whether its submission succeeded or failed — a failed automatic payment is
not re-enqueued by the drain. -/
theorem c8_drain_isolated_and_consuming (queue : List ScheduleEntry)
    (now : Int) (cards : List (String × DrainCard)) (users : List String)
    (submit : ScheduleEntry → Bool) (hnd : queue.Nodup)
    (hready : ∀ e ∈ queue, entryReady now cards users e = true) :
    (processScheduledPayments queue now cards users submit).submitted =
      queue ∧
    (processScheduledPayments queue now cards users submit).processed =
      queue.length ∧
    (processScheduledPayments queue now cards users submit).queue = [] := by
  have hdue :
      queue.filter
        (fun e => decide (0 ≤ e.score) && decide (e.score ≤ now)) = queue := by
    rw [List.filter_eq_self]
    intro e he
    have h := hready e he
    unfold entryReady at h
    cases cards.lookup e.cardId <;>
      simp only [Bool.and_eq_true, decide_eq_true_eq] at h ⊢ <;>
      exact ⟨h.1.1.1.1, h.1.1.1.2⟩
  unfold processScheduledPayments
  rw [hdue]
  refine ⟨?_, ?_, ?_⟩
  · rw [drainFold_submitted now cards users submit queue _ hready]
    simp
  · rw [drainFold_processed now cards users submit queue _ hready]
    simp
  · rw [drainFold_queue now cards users submit queue _ hready]
    exact foldl_erase_self queue hnd

/-- Witness for `c8_drain_isolated_and_consuming`: two due obligations where
the first submission fails and the second succeeds; both are submitted and
both are removed from the queue. -/
theorem c8_drain_isolated_and_consuming_w :
    (processScheduledPayments [c8EntryA, c8EntryB] 2000 drainCards drainUsers
        c8Submit).submitted = [c8EntryA, c8EntryB] ∧
    (processScheduledPayments [c8EntryA, c8EntryB] 2000 drainCards drainUsers
        c8Submit).processed = [c8EntryA, c8EntryB].length ∧
    (processScheduledPayments [c8EntryA, c8EntryB] 2000 drainCards drainUsers
        c8Submit).queue = [] :=
  c8_drain_isolated_and_consuming [c8EntryA, c8EntryB] 2000 drainCards
    drainUsers c8Submit (by decide) (by decide)

end Lurk
